import Mathlib

/-!
Verification development for the sd-webui control-network extension
(src/scripts/cldm.py and src/scripts/processor.py), as a shallow embedding.

Conventions of the embedding:
- Python strings (state-dict keys) are `List Char`; the helpers `startsW`,
  `replaceAll` and `lookupKey` mirror `str.startswith`, `str.replace`
  (replace every non-overlapping occurrence, left to right) and dict lookup.
- Tensors are modelled elementwise by a single representative `Int` value;
  tensor `+`, `-` are Int `+`, `-`; `.clone()` and `.cpu()` are identity,
  since they do not change the value.
- Neural blocks that are vendored host-framework code (ResBlock, attention,
  Downsample, conv_nd, SiLU) are opaque functions over an abstract value
  type; only the structure this repository builds out of them is modelled.
- Fallible dictionary indexing (Python KeyError) and `list.pop` on an empty
  list (IndexError) are modelled with `Option`.
-/

/- ===== Strings as char lists (Python str operations) ===== -/

abbrev Key := List Char

/-- Python `s.startswith(pat)` on char lists. -/
def startsW : Key → Key → Bool
  | _, [] => true
  | [], _ :: _ => false
  | c :: cs, d :: ds => (c == d) && startsW cs ds

/-- Fuelled worker for `replaceAll`; with fuel = length of the string it
replaces every non-overlapping occurrence of `pat`, scanning left to right,
exactly as Python `str.replace` does for a nonempty pattern (every pattern
used in the source is nonempty). Each step consumes at least one character,
so fuel = length is always enough and the fuel-0 branch is unreachable. -/
def replaceAllFuel (pat rep : Key) : Nat → Key → Key
  | _, [] => []
  | 0, s => s
  | fuel + 1, c :: cs =>
    if startsW (c :: cs) pat then
      rep ++ replaceAllFuel pat rep fuel (List.drop (pat.length - 1) cs)
    else c :: replaceAllFuel pat rep fuel cs

/-- Python `s.replace(pat, rep)` (all occurrences) on char lists. -/
def replaceAll (s pat rep : Key) : Key := replaceAllFuel pat rep s.length s

/- ===== scripts/processor.py ===== -/

/-- A pixel of an already 3-channel image (uint8 intensities 0..255). -/
abbrev Pixel := Nat × Nat × Nat

/-- Minimum across the three colour channels: `np.min(img, axis=2)` at one
pixel position. -/
def pixelMin (p : Pixel) : Nat := min p.1 (min p.2.1 p.2.2)

/-- Pointwise action of `simple_scribble` (processor.py lines 18-22): the
output starts all zero (`np.zeros_like`) and every position where the
channel minimum is below 127 is set to 255 in all channels. -/
def scribblePixel (p : Pixel) : Pixel :=
  if pixelMin p < 127 then (255, 255, 255) else (0, 0, 0)

/-- `simple_scribble` (processor.py lines 18-22) on an image that is already
3-channel and already at the target size, so that the external `HWC3` and
`resize_image` utilities act as the identity (the assumption granted by the
claim). The numpy masked assignment is the pointwise map `scribblePixel`. -/
def simple_scribble (img : List (List Pixel)) : List (List Pixel) :=
  img.map (List.map scribblePixel)

/-- The detector callables lazily imported by scripts/processor.py from the
external annotator modules (spec section 6). -/
inductive Detector
  | apply_hed
  | apply_mlsd
  | apply_midas
  | apply_openpose
  | apply_uniformer
deriving DecidableEq

/-- The module-level state of scripts/processor.py: one cache slot per
annotator modality (`model_hed = None` initially, etc.), plus a log of the
external unload routines invoked (`unload_hed_model()` and friends live in
the external annotator modules; the log records that the call happened). -/
structure ProcState where
  model_hed : Option Detector
  model_mlsd : Option Detector
  model_midas : Option Detector
  model_openpose : Option Detector
  model_uniformer : Option Detector
  ext_calls : List String
deriving DecidableEq

/-- Cache behaviour of `hed` (processor.py lines 28-35): if the slot is
None, import `apply_hed` and store it, then call it. Returns the new state
and whether the lazy-import branch ran (detector constructed at dispatch
level on this call). -/
def hed (s : ProcState) : ProcState × Bool :=
  match s.model_hed with
  | none => ({ s with model_hed := some Detector.apply_hed }, true)
  | some _ => (s, false)

/-- `unload_hed` (processor.py lines 37-41): if the slot is not None, call
the external `unload_hed_model()`. The slot itself is not assigned. -/
def unload_hed (s : ProcState) : ProcState :=
  match s.model_hed with
  | none => s
  | some _ => { s with ext_calls := s.ext_calls ++ ["unload_hed_model"] }

/-- Cache behaviour of `mlsd` (processor.py lines 57-64). -/
def mlsd (s : ProcState) : ProcState × Bool :=
  match s.model_mlsd with
  | none => ({ s with model_mlsd := some Detector.apply_mlsd }, true)
  | some _ => (s, false)

/-- `unload_mlsd` (processor.py lines 66-70). -/
def unload_mlsd (s : ProcState) : ProcState :=
  match s.model_mlsd with
  | none => s
  | some _ => { s with ext_calls := s.ext_calls ++ ["unload_mlsd_model"] }

/-- Cache behaviour of `midas` (processor.py lines 76-83). -/
def midas (s : ProcState) : ProcState × Bool :=
  match s.model_midas with
  | none => ({ s with model_midas := some Detector.apply_midas }, true)
  | some _ => (s, false)

/-- `unload_midas` (processor.py lines 94-98). -/
def unload_midas (s : ProcState) : ProcState :=
  match s.model_midas with
  | none => s
  | some _ => { s with ext_calls := s.ext_calls ++ ["unload_midas_model"] }

/-- Cache behaviour of `openpose` (processor.py lines 104-111). -/
def openpose (s : ProcState) : ProcState × Bool :=
  match s.model_openpose with
  | none => ({ s with model_openpose := some Detector.apply_openpose }, true)
  | some _ => (s, false)

/-- `unload_openpose` (processor.py lines 122-126). -/
def unload_openpose (s : ProcState) : ProcState :=
  match s.model_openpose with
  | none => s
  | some _ => { s with ext_calls := s.ext_calls ++ ["unload_openpose_model"] }

/-- Cache behaviour of `uniformer` (processor.py lines 132-139). -/
def uniformer (s : ProcState) : ProcState × Bool :=
  match s.model_uniformer with
  | none => ({ s with model_uniformer := some Detector.apply_uniformer }, true)
  | some _ => (s, false)

/-- `unload_uniformer` (processor.py lines 141-145). -/
def unload_uniformer (s : ProcState) : ProcState :=
  match s.model_uniformer with
  | none => s
  | some _ => { s with ext_calls := s.ext_calls ++ ["unload_uniformer_model"] }

/- ===== scripts/cldm.py : key derivation and reconciliation ===== -/

/-- The literal key segments used by the reconciliation code. -/
def ctrlSeg : Key := "control_".toList

def modelDot : Key := "model.".toList

def ctrlModelPre : Key := "control_model.".toList

def diffModelPre : Key := "model.diffusion_model.".toList

def diffKey : Key := "difference".toList

/-- `get_node_name` (cldm.py lines 46-52): returns (False, empty) unless
`name` is strictly longer than `parent_name` and starts with it, in which
case it returns (True, the remainder). -/
def get_node_name (name parent_name : Key) : Bool × Key :=
  if name.length ≤ parent_name.length then (false, [])
  else if name.take parent_name.length ≠ parent_name then (false, [])
  else (true, name.drop parent_name.length)

/-- A checkpoint or base-model state dict: ordered key-value entries
(Python dicts preserve insertion order; keys are unique in a real dict). -/
abbrev StateDict := List (Key × Int)

/-- Python dict lookup `d[k]` / `d.get(k)` as an Option. -/
def lookupKey (k : Key) : StateDict → Option Int
  | [] => none
  | (k', v) :: rest => if k' = k then some v else lookupKey k rest

/-- The lookup-key derivation inside the transfer loop (cldm.py lines
81-82): `is_control, node_name = get_node_name(key, 'control_')` followed by
`key_name = node_name.replace("model.", "") if is_control else key`. Note
that Python replace removes every occurrence of the `model.` segment. -/
def transferKeyName (key : Key) : Key :=
  let r := get_node_name key ctrlSeg
  if r.1 then replaceAll r.2 modelDot [] else key

/-- The per-key body of the transfer loop (cldm.py lines 80-94): look the
derived key up in the base-model state dict; in difference mode the new
value is p plus the base parameter; in transfer mode it additionally
subtracts the checkpoint entry under the `model.diffusion_model.` name
(Python raises KeyError when that entry is missing, modelled as none);
keys absent from the base model keep their value. -/
def transferEntry (is_diff_model : Bool) (state_dict unet_state_dict : StateDict)
    (key : Key) (p : Int) : Option Int :=
  let key_name := transferKeyName key
  match lookupKey key_name unet_state_dict with
  | some b =>
      if is_diff_model then some (p + b)
      else
        match lookupKey (diffModelPre ++ key_name) state_dict with
        | some r => some (p + b - r)
        | none => none
  | none => some p

/-- The transfer loop over the checkpoint keys (cldm.py lines 74-97): keys
without the `control_model.` namespace are skipped (`continue`); every
namespaced key is rewritten by `transferEntry` into `final_state_dict`. -/
def transferControlLoop (is_diff_model : Bool) (state_dict unet_state_dict : StateDict) :
    StateDict → Option StateDict
  | [] => some []
  | (key, p) :: rest =>
    if startsW key ctrlModelPre then
      match transferEntry is_diff_model state_dict unet_state_dict key p with
      | some p_new =>
          (transferControlLoop is_diff_model state_dict unet_state_dict rest).map
            (fun fin => (key, p_new) :: fin)
      | none => none
    else transferControlLoop is_diff_model state_dict unet_state_dict rest

/-- Final namespace strip (cldm.py line 99): keep only keys with the
`control_model.` namespace and remove that segment from each. -/
def stripCtrl (sd : StateDict) : StateDict :=
  (sd.filter fun kv => startsW kv.1 ctrlModelPre).map
    fun kv => (replaceAll kv.1 ctrlModelPre [], kv.2)

/-- The two host settings this repository reads from the shared settings
store, each with `.get(name, default)` semantics (None models an unset
option; the default is applied at the use site, as in the source). -/
structure SharedOpts where
  control_net_control_transfer : Option Bool
  control_net_only_midctrl_hires : Option Bool

/-- The state-dict reconciliation performed by `PlugableControlModel.__init__`
(cldm.py lines 63-102), abstracted from module construction: produces the
dict finally passed to `control_model.load_state_dict`. `none` models the
KeyError raised on a missing `model.diffusion_model.` reference entry. -/
def reconcile (state_dict : StateDict) (opts : SharedOpts)
    (base_model : Option StateDict) : Option StateDict :=
  if state_dict.any (fun kv => startsW kv.1 ctrlModelPre) then
    let is_diff_model := (lookupKey diffKey state_dict).isSome
    let transfer_ctrl_opt := opts.control_net_control_transfer.getD false
      && state_dict.any (fun kv => startsW kv.1 diffModelPre)
    let afterTransfer :=
      if (is_diff_model || transfer_ctrl_opt) && base_model.isSome then
        transferControlLoop is_diff_model state_dict (base_model.getD []) state_dict
      else some state_dict
    afterTransfer.map stripCtrl
  else some state_dict

/- ===== scripts/cldm.py : hook resolution logic (C5) ===== -/

/-- The only_mid_control determination at the top of the hooked forward
(cldm.py lines 117-123): `x_last` is `x.shape[-1]` and `hint_last` is
`hint_cond.shape[-1]`; when `abs(x_last - hint_last // 8) > 8` the flag is
taken from the host setting `control_net_only_midctrl_hires` with default
True, otherwise the wrapper flag is used. Python `//` on the nonnegative
shape is Nat division. -/
def hookOnlyMidControl (outer_only_mid : Bool) (opts : SharedOpts)
    (x_last hint_last : Nat) : Bool :=
  if (((x_last : Int) - ((hint_last / 8 : Nat) : Int)).natAbs) > 8 then
    opts.control_net_only_midctrl_hires.getD true
  else outer_only_mid

/- ===== scripts/cldm.py : ControlNet structure (C4) ===== -/

/-- Abstract constructors for the vendored building blocks appended by
`ControlNet.__init__` (cldm.py lines 275-420). Each field stands for one
kind of module the constructor creates; block internals (ResBlock contents,
attention) are outside this repository and stay opaque, but which module is
appended to which list, and how many times, follows the source loop. -/
structure BlockFactory (α : Type) where
  initialConv : α → α
  resAttn : Nat → Nat → α → α
  downBlock : Nat → α → α
  zeroConv0 : α → α
  zeroConv : Nat → Nat → α → α
  zeroConvDown : Nat → α → α
  inputHint : α → α
  middleBlock : α → α
  middleOut : α → α

/-- The construction loop of `ControlNet.__init__` (cldm.py lines 306-376)
at module-list level: for every level and every residual-block index one
entry is appended to `input_blocks` and one matching zero conv to
`zero_convs`; every level except the last additionally appends one
downsampling entry to each list. The two lockstep appends are modelled as
one list of pairs. -/
def buildPairs {α : Type} (F : BlockFactory α) (channel_mult num_res_blocks : List Nat) :
    List ((α → α) × (α → α)) :=
  (List.range channel_mult.length).flatMap fun level =>
    ((List.range (num_res_blocks.getD level 0)).map
      fun nr => (F.resAttn level nr, F.zeroConv level nr))
    ++ (if level ≠ channel_mult.length - 1 then
          [(F.downBlock level, F.zeroConvDown level)]
        else [])

/-- The module lists of a constructed ControlNet instance. -/
structure ControlNetStruct (α : Type) where
  input_blocks : List (α → α)
  zero_convs : List (α → α)
  input_hint_block : α → α
  middle_block : α → α
  middle_block_out : α → α

/-- `ControlNet.__init__` (cldm.py lines 275-417) at module-list level:
`input_blocks` starts with the initial conv (line 275) and `zero_convs`
with the first zero conv (line 282); the loop appends to both in lockstep;
`middle_block` and its zero conv close the construction. -/
def ControlNet.build {α : Type} (F : BlockFactory α)
    (channel_mult num_res_blocks : List Nat) : ControlNetStruct α :=
  let pairs := buildPairs F channel_mult num_res_blocks
  { input_blocks := F.initialConv :: pairs.map Prod.fst
    zero_convs := F.zeroConv0 :: pairs.map Prod.snd
    input_hint_block := F.inputHint
    middle_block := F.middleBlock
    middle_block_out := F.middleOut }

/-- The encoder loop of `ControlNet.forward` (cldm.py lines 442-449):
iterate over `zip(input_blocks, zero_convs)`; on the first block, add
`guided_hint` into the block output and clear it; collect each zero conv
output; also return the running feature value for the middle block. -/
def encodeLoop {α : Type} [Add α] :
    List ((α → α) × (α → α)) → Option α → α → List α × α
  | [], _, h => ([], h)
  | (module, zero_conv) :: rest, guided, h =>
    let h1 := match guided with
      | some g => module h + g
      | none => module h
    let r := encodeLoop rest none h1
    (zero_conv h1 :: r.1, r.2)

/-- `ControlNet.forward` (cldm.py lines 429-454): run the hint block, run
the encoder loop collecting zero conv outputs, then append the middle-block
zero conv output. The timestep embedding, spatial alignment of the guided
hint and the dtype cast do not change the list structure and are absorbed
into the opaque block functions. -/
def ControlNetStruct.forward {α : Type} [Add α] (net : ControlNetStruct α)
    (x hint : α) : List α :=
  let guided_hint := net.input_hint_block hint
  let r := encodeLoop (net.input_blocks.zip net.zero_convs) (some guided_hint) x
  r.1 ++ [net.middle_block_out (net.middle_block r.2)]

/- ===== scripts/cldm.py : hooked host forward (C4) ===== -/

/-- The layout of the host generation network consumed by the hook
(spec section 6): encoder blocks, middle block, decoder blocks, output
head. Blocks are opaque functions. -/
structure HostUNet (α : Type) where
  input_blocks : List (α → α)
  middle_block : α → α
  output_blocks : List (α → α)
  out : α → α

/-- Python `list.pop()`: the last element and the remaining list, or none
on an empty list (IndexError). -/
def popLast {α : Type} : List α → Option (α × List α)
  | [] => none
  | a :: as => some ((a :: as).getLast (List.cons_ne_nil a as), (a :: as).dropLast)

/-- The replicated host encoder pass inside the hook (cldm.py lines
134-137): run every encoder block in turn, pushing each output onto `hs`,
and return the stack together with the final feature value. -/
def hostEncode {α : Type} : List (α → α) → α → List α × α
  | [], h => ([], h)
  | m :: ms, h =>
    let h1 := m h
    let r := hostEncode ms h1
    (h1 :: r.1, r.2)

/-- Opaque tensor operations used by the hooked decoder loop: addition,
channel concatenation (`torch.cat`), spatial alignment of the running value
to a skip connection (`align`), and scaling a control offset by the
wrapper weight. -/
structure HookOps (α : Type) where
  add : α → α → α
  cat : α → α → α
  alignTo : α → α → α
  scale : α → α → α

/-- The decoder loop of the hooked forward (cldm.py lines 142-149): one
iteration per host output block; always pop the `hs` stack; when
only_mid_control is off also pop the `control` stack, align, scale by the
wrapper weight, add to the skip value and concatenate. Returns the final
feature value and both leftover stacks, or none when a pop hits an empty
list (Python IndexError). -/
def decodeLoop {α : Type} (ops : HookOps α) (w : α) (only_mid_control : Bool) :
    List (α → α) → α → List α → List α → Option (α × List α × List α)
  | [], h, hs, control => some (h, hs, control)
  | module :: rest, h, hs, control =>
    if only_mid_control then
      match popLast hs with
      | none => none
      | some (hs_input, hs') =>
          decodeLoop ops w only_mid_control rest
            (module (ops.cat h hs_input)) hs' control
    else
      match popLast hs, popLast control with
      | some (hs_input, hs'), some (control_input, control') =>
          let h1 := ops.alignTo h hs_input
          decodeLoop ops w only_mid_control rest
            (module (ops.cat h1 (ops.add hs_input (ops.scale control_input w))))
            hs' control'
      | _, _ => none

/-- The control-consuming part of the hooked forward (cldm.py lines
127-152), taking the already-computed control output list and the already
resolved only_mid_control flag (see hookOnlyMidControl): replicate the host
encoder, run the middle block, add the popped last control element into the
middle-block output, run the decoder loop, and apply the output head.
Returns the result together with the leftover control stack. -/
def hookedForwardCore {α : Type} (ops : HookOps α) (host : HostUNet α) (w : α)
    (only_mid_control : Bool) (control : List α) (x : α) : Option (α × List α) :=
  let hs := (hostEncode host.input_blocks x).1
  let hmid := host.middle_block (hostEncode host.input_blocks x).2
  match popLast control with
  | none => none
  | some (cmid, control') =>
    match decodeLoop ops w only_mid_control host.output_blocks
        (ops.add hmid cmid) hs control' with
    | none => none
    | some (hfin, _, controlRest) => some (host.out hfin, controlRest)

/- ===== scripts/cldm.py : hook installation and removal (C1) ===== -/

/-- The host network object as seen by hook and restore: its `forward`
member and the optional `_original_forward` attribute (none models the
attribute being absent, the sentinel checked by `hasattr`). The type of the
forward computable is abstract; the replacement installed by `hook` is the
wrapper whose body is modelled by `hookedForwardCore`. -/
structure HostNetwork (φ : Type) where
  forward : φ
  original_forward : Option φ

/-- `PlugableControlModel.hook`, attribute discipline (cldm.py lines
166-167): first save the current forward into `_original_forward`, then
overwrite `forward` with the control-augmented wrapper `forward2`. -/
def hook {φ : Type} (forward2 : φ) (model : HostNetwork φ) : HostNetwork φ :=
  { forward := forward2, original_forward := some model.forward }

/-- `PlugableControlModel.restore` (cldm.py lines 174-180): without a saved
`_original_forward` attribute return with no change; otherwise reinstate
the saved forward and delete the attribute. -/
def restore {φ : Type} (model : HostNetwork φ) : HostNetwork φ :=
  match model.original_forward with
  | none => model
  | some f => { forward := f, original_forward := none }

/- ===== scripts/cldm.py : wrapper state and notify (C10) ===== -/

/-- The mutable fields of a `PlugableControlModel` wrapper set at the end
of `__init__` (cldm.py lines 104-109), with the held control network. -/
structure PlugableState (α : Type) where
  control_model : ControlNetStruct α
  lowvram : Bool
  weight : α
  only_mid_control : Bool
  control : Option α
  hint_cond : Option α

/-- `PlugableControlModel.notify` (cldm.py lines 169-172): assign
`hint_cond` and `weight`; nothing else is touched. -/
def notify {α : Type} (s : PlugableState α) (cond_like : α) (w : α) :
    PlugableState α :=
  { s with hint_cond := some cond_like, weight := w }

/-- A wrapper together with the host network it may be hooked into, to
state frame conditions about the host: `notify` receives no host reference
at all, so the host component is untouched. -/
structure ControlSystem (φ α : Type) where
  wrapper : PlugableState α
  host : HostNetwork φ

/-- `notify` viewed at system level: only the wrapper component changes. -/
def notifySystem {φ α : Type} (s : ControlSystem φ α) (cond_like : α) (w : α) :
    ControlSystem φ α :=
  { s with wrapper := notify s.wrapper cond_like w }

/- ===== scripts/cldm.py : zero convolutions (C9) ===== -/

/-- Modelled from the spec: `conv_nd` and `zero_module` are vendored host
framework helpers (spec sections 1 and 6), absent from src. A convolution
layer is its per-output-channel weight rows and bias vector; `zero_module`
zeroes every parameter (glossary: a zero convolution is a convolutional
projection initialized to all-zero weights and bias). -/
structure ConvLayer where
  weight : List (List Int)
  bias : List Int

/-- Modelled from the spec: the value of a convolution at output channel
`o` and spatial position `q` is the bias for `o` plus the weighted sum of
the input window at `q` (the window is an arbitrary function of the
position, covering any padding or stride policy). -/
def ConvLayer.output (c : ConvLayer) (window : Nat → List Int) (o q : Nat) : Int :=
  c.bias.getD o 0 +
    (List.zipWith (fun w v => w * v) (c.weight.getD o []) (window q)).sum

/-- Modelled from the spec: `zero_module` detaches and zero-fills every
parameter of the module it wraps. -/
def zero_module (c : ConvLayer) : ConvLayer :=
  { weight := c.weight.map fun row => row.map fun _ => (0 : Int)
    bias := c.bias.map fun _ => (0 : Int) }

/-- `ControlNet.make_zero_conv` (cldm.py lines 419-420): a 1x1 convolution
wrapped in `zero_module`; `c` is the conv as `conv_nd` constructed it,
with arbitrary initial parameters. -/
def make_zero_conv (c : ConvLayer) : ConvLayer := zero_module c

/-- The final convolution of `input_hint_block` (cldm.py line 299):
`zero_module(conv_nd(dims, 256, model_channels, 3, padding=1))`. -/
def hintBlockFinalConv (c : ConvLayer) : ConvLayer := zero_module c

/- ===== Concrete instances used by witness theorems ===== -/

/-- Concrete hook operations over Int used by witnesses. -/
def opsW : HookOps Int :=
  ⟨fun a b => a + b, fun a b => a + b, fun a _ => a, fun a b => a * b⟩

/-- A concrete block factory over Int used by witnesses. -/
def FW : BlockFactory Int :=
  ⟨id, fun _ _ v => v, fun _ v => v, id, fun _ _ v => v, fun _ v => v, id, id, id⟩

/-- A concrete two-level host network used by witnesses. -/
def hostW : HostUNet Int := ⟨[id, id], id, [id, id], id⟩

/-- A bundled control key used by witness checkpoints. -/
def ckW : Key := "control_model.input_blocks.0.0.weight".toList

/-- The matching recorded base-model key in the checkpoint. -/
def rkW : Key := "model.diffusion_model.input_blocks.0.0.weight".toList

/-- The derived lookup key inside the base model. -/
def baseW : Key := "input_blocks.0.0.weight".toList

/-- A transfer-mode witness checkpoint. -/
def sdW : StateDict := [(ckW, 5), (rkW, 2)]

/-- A witness base-model state dict. -/
def unetW : StateDict := [(baseW, 7)]

/-- A second bundled control key with no base-model counterpart. -/
def ck3W : Key := "control_model.zero_convs.0.0.bias".toList

/-- A difference-mode witness checkpoint. -/
def sd3W : StateDict := [(diffKey, 1), (ckW, 5), (ck3W, 4)]

/- ===== Helper lemmas ===== -/

theorem startsW_any_of_mem {sd : StateDict} {key : Key} {p : Int} {pat : Key}
    (hmem : (key, p) ∈ sd) (hpre : startsW key pat = true) :
    sd.any (fun kv => startsW kv.1 pat) = true :=
  List.any_eq_true.mpr ⟨(key, p), hmem, hpre⟩

theorem zeroRow_getD (l : List Int) (o : Nat) :
    (l.map fun _ => (0 : Int)).getD o 0 = 0 := by
  induction l generalizing o with
  | nil => simp
  | cons a l ih => cases o <;> simp [ih]

theorem zeroRows_getD (l : List (List Int)) (o : Nat) :
    (l.map fun row => row.map fun _ => (0 : Int)).getD o []
      = (l.getD o []).map fun _ => (0 : Int) := by
  induction l generalizing o with
  | nil => simp
  | cons a l ih =>
    cases o with
    | zero => simp
    | succ n =>
      simp only [List.map_cons, List.getD_cons_succ]
      exact ih n

theorem zipWithZero_sum (l w : List Int) :
    (List.zipWith (fun a b => a * b) (l.map fun _ => (0 : Int)) w).sum = 0 := by
  induction l generalizing w with
  | nil => simp
  | cons a l ih =>
    cases w with
    | nil => simp
    | cons b w =>
      simp only [List.map_cons, List.zipWith_cons_cons, List.sum_cons, zero_mul, zero_add]
      exact ih w

theorem zero_module_output (c : ConvLayer) (window : Nat → List Int) (o q : Nat) :
    (zero_module c).output window o q = 0 := by
  unfold zero_module ConvLayer.output
  simp only
  rw [zeroRows_getD, zeroRow_getD, zipWithZero_sum]
  simp

theorem transferControlLoop_mem (is_diff : Bool) (sd unet : StateDict)
    (key : Key) (p p_new : Int)
    (hpre : startsW key ctrlModelPre = true)
    (hent : transferEntry is_diff sd unet key p = some p_new) :
    ∀ (l mid : StateDict), (key, p) ∈ l →
      transferControlLoop is_diff sd unet l = some mid → (key, p_new) ∈ mid := by
  intro l
  induction l with
  | nil =>
    intro mid hmem _
    exact absurd hmem (List.not_mem_nil _)
  | cons kv rest ih =>
    obtain ⟨k0, p0⟩ := kv
    intro mid hmem hloop
    simp only [transferControlLoop] at hloop
    rcases List.mem_cons.mp hmem with heq | htail
    · injection heq with hk hp
      subst hk
      subst hp
      rw [if_pos hpre, hent] at hloop
      obtain ⟨mid', hm', heq'⟩ := Option.map_eq_some'.mp hloop
      rw [← heq']
      exact List.mem_cons_self _ _
    · by_cases hs0 : startsW k0 ctrlModelPre = true
      · rw [if_pos hs0] at hloop
        cases hE : transferEntry is_diff sd unet k0 p0 with
        | none =>
          rw [hE] at hloop
          exact absurd hloop (by simp)
        | some q =>
          rw [hE] at hloop
          obtain ⟨mid', hm', heq'⟩ := Option.map_eq_some'.mp hloop
          rw [← heq']
          exact List.mem_cons_of_mem _ (ih mid' htail hm')
      · rw [if_neg hs0] at hloop
        exact ih mid htail hloop

theorem transferEntry_diff_isSome (sd unet : StateDict) (key : Key) (p : Int) :
    (transferEntry true sd unet key p).isSome = true := by
  cases hE : lookupKey (transferKeyName key) unet <;> simp [transferEntry, hE]

theorem transferControlLoop_diff_isSome (sd unet : StateDict) :
    ∀ l, (transferControlLoop true sd unet l).isSome = true := by
  intro l
  induction l with
  | nil => simp [transferControlLoop]
  | cons kv rest ih =>
    obtain ⟨k0, p0⟩ := kv
    simp only [transferControlLoop]
    by_cases hs0 : startsW k0 ctrlModelPre = true
    · rw [if_pos hs0]
      cases hE : transferEntry true sd unet k0 p0 with
      | none =>
        have := transferEntry_diff_isSome sd unet k0 p0
        rw [hE] at this
        exact absurd this (by simp)
      | some q =>
        obtain ⟨mid, hmid⟩ := Option.isSome_iff_exists.mp ih
        rw [hmid]
        simp
    · rw [if_neg hs0]
      exact ih

theorem stripCtrl_mem {key : Key} {q : Int} {mid : StateDict}
    (hmem : (key, q) ∈ mid) (hpre : startsW key ctrlModelPre = true) :
    (replaceAll key ctrlModelPre [], q) ∈ stripCtrl mid := by
  unfold stripCtrl
  exact List.mem_map.mpr ⟨(key, q), List.mem_filter.mpr ⟨hmem, hpre⟩, rfl⟩

theorem encodeLoop_length {α : Type} [Add α] :
    ∀ (l : List ((α → α) × (α → α))) (g : Option α) (h : α),
      (encodeLoop l g h).1.length = l.length := by
  intro l
  induction l with
  | nil => intro g h; rfl
  | cons mz rest ih =>
    intro g h
    obtain ⟨m, z⟩ := mz
    simp [encodeLoop, ih]

theorem build_zero_convs_length {α : Type} (F : BlockFactory α)
    (channel_mult num_res_blocks : List Nat) :
    (ControlNet.build F channel_mult num_res_blocks).zero_convs.length
      = (ControlNet.build F channel_mult num_res_blocks).input_blocks.length := by
  simp [ControlNet.build]

theorem forward_length {α : Type} [Add α] (net : ControlNetStruct α) (x hint : α)
    (hlen : net.zero_convs.length = net.input_blocks.length) :
    (net.forward x hint).length = net.input_blocks.length + 1 := by
  unfold ControlNetStruct.forward
  simp [encodeLoop_length, List.length_zip, hlen]

theorem popLast_of_length_succ {α : Type} (l : List α) (n : Nat) (hl : l.length = n + 1) :
    ∃ a l', popLast l = some (a, l') ∧ l'.length = n := by
  cases l with
  | nil => simp at hl
  | cons a as =>
    simp only [List.length_cons] at hl
    refine ⟨_, _, rfl, ?_⟩
    rw [List.length_dropLast, List.length_cons]
    omega

theorem decodeLoop_exhaust {α : Type} (ops : HookOps α) (w : α) :
    ∀ (mods : List (α → α)) (h : α) (hs control : List α),
      hs.length = mods.length → control.length = mods.length →
      ∃ hf, decodeLoop ops w false mods h hs control = some (hf, [], []) := by
  intro mods
  induction mods with
  | nil =>
    intro h hs control hhs hc
    obtain rfl := List.length_eq_zero.mp hhs
    obtain rfl := List.length_eq_zero.mp hc
    exact ⟨h, rfl⟩
  | cons mod rest ih =>
    intro h hs control hhs hc
    obtain ⟨hsi, hs', hpop, hlen⟩ :=
      popLast_of_length_succ hs rest.length (by simpa using hhs)
    obtain ⟨ci, control', hpop2, hlen2⟩ :=
      popLast_of_length_succ control rest.length (by simpa using hc)
    obtain ⟨hf, hrec⟩ := ih _ hs' control' hlen hlen2
    refine ⟨hf, ?_⟩
    simp only [decodeLoop]
    rw [if_neg (by simp)]
    rw [hpop, hpop2]
    exact hrec

theorem hostEncode_length {α : Type} :
    ∀ (blocks : List (α → α)) (x : α), (hostEncode blocks x).1.length = blocks.length := by
  intro blocks
  induction blocks with
  | nil => intro x; rfl
  | cons m ms ih =>
    intro x
    simp [hostEncode, ih]

theorem scribblePixel_triple (p : Pixel) :
    scribblePixel (scribblePixel (scribblePixel p)) = scribblePixel p := by
  unfold scribblePixel
  by_cases h : pixelMin p < 127
  · rw [if_pos h]
    decide
  · rw [if_neg h]
    decide

/- ===== Claim theorems ===== -/

/-- C1: calling restore on a host network without a saved original-forward
reference returns it unchanged, and hook followed by restore reinstates
exactly the forward computation the network had before hook, deleting the
saved reference. -/
theorem C1_hook_restore {φ : Type} (model : HostNetwork φ) (forward2 : φ) :
    (model.original_forward = none → restore model = model) ∧
    (restore (hook forward2 model)).forward = model.forward ∧
    (restore (hook forward2 model)).original_forward = none := by
  refine ⟨fun h => ?_, rfl, rfl⟩
  unfold restore
  rw [h]

/-- Witness for C1 at a concrete host network. -/
theorem C1_witness :
    restore (⟨5, none⟩ : HostNetwork Nat) = ⟨5, none⟩ ∧
    (restore (hook 7 (⟨5, none⟩ : HostNetwork Nat))).forward = 5 ∧
    (restore (hook 7 (⟨5, none⟩ : HostNetwork Nat))).original_forward = none :=
  ⟨(C1_hook_restore ⟨5, none⟩ 7).1 rfl,
   (C1_hook_restore ⟨5, none⟩ 7).2.1,
   (C1_hook_restore ⟨5, none⟩ 7).2.2⟩

/-- C5: in the hooked forward pass, when the absolute difference between
the last latent dimension and the hint last dimension integer-divided by 8
exceeds 8, only_mid_control is taken from the host setting
control_net_only_midctrl_hires (default true) regardless of the wrapper
flag; when the difference is at most 8 the wrapper flag is used. -/
theorem C5_hires_only_mid (outer_only_mid : Bool) (opts : SharedOpts)
    (x_last hint_last : Nat) :
    ((((x_last : Int) - ((hint_last / 8 : Nat) : Int)).natAbs > 8) →
      hookOnlyMidControl outer_only_mid opts x_last hint_last
        = opts.control_net_only_midctrl_hires.getD true) ∧
    ((((x_last : Int) - ((hint_last / 8 : Nat) : Int)).natAbs ≤ 8) →
      hookOnlyMidControl outer_only_mid opts x_last hint_last = outer_only_mid) := by
  refine ⟨fun h => ?_, fun h => ?_⟩
  · unfold hookOnlyMidControl
    rw [if_pos h]
  · unfold hookOnlyMidControl
    rw [if_neg (by omega)]

/-- Witness for C5 at concrete dimensions, with the wrapper flag set
opposite to the host setting in each branch. -/
theorem C5_witness :
    hookOnlyMidControl false ⟨some false, some true⟩ 100 8 = true ∧
    hookOnlyMidControl true ⟨some false, some true⟩ 64 512 = true :=
  ⟨(C5_hires_only_mid false ⟨some false, some true⟩ 100 8).1 (by decide),
   (C5_hires_only_mid true ⟨some false, some true⟩ 64 512).2 (by decide)⟩

/-- C6 counterexample: after a detection call has populated the hed cache
slot, unload_hed does not reset the slot to the unloaded state, and the
next hed call does not reconstruct the detector at dispatch level; the
claim that the slot is reset so that the next call reconstructs is false
at this concrete state. -/
theorem C6_counterexample :
    (unload_hed (hed ⟨none, none, none, none, none, []⟩).1).model_hed ≠ none ∧
    (hed (unload_hed (hed ⟨none, none, none, none, none, []⟩).1)).2 = false := by
  decide

/-- C6 as amended: for each of the five modalities with an unload
operation, calling unload when the detection operation never ran is a
no-op that changes no state; after the detection operation has populated
the module-level cache slot, unload invokes the external unload routine
but leaves the cache slot populated, and the next detection call reuses
the cached callable without reconstructing it at dispatch level. -/
theorem C6_unload_semantics (s : ProcState) :
    (s.model_hed = none → unload_hed s = s) ∧
    (∀ d, s.model_hed = some d →
      (unload_hed s).model_hed = some d ∧
      (unload_hed s).ext_calls = s.ext_calls ++ ["unload_hed_model"] ∧
      (hed (unload_hed s)).2 = false) ∧
    (s.model_mlsd = none → unload_mlsd s = s) ∧
    (∀ d, s.model_mlsd = some d →
      (unload_mlsd s).model_mlsd = some d ∧
      (unload_mlsd s).ext_calls = s.ext_calls ++ ["unload_mlsd_model"] ∧
      (mlsd (unload_mlsd s)).2 = false) ∧
    (s.model_midas = none → unload_midas s = s) ∧
    (∀ d, s.model_midas = some d →
      (unload_midas s).model_midas = some d ∧
      (unload_midas s).ext_calls = s.ext_calls ++ ["unload_midas_model"] ∧
      (midas (unload_midas s)).2 = false) ∧
    (s.model_openpose = none → unload_openpose s = s) ∧
    (∀ d, s.model_openpose = some d →
      (unload_openpose s).model_openpose = some d ∧
      (unload_openpose s).ext_calls = s.ext_calls ++ ["unload_openpose_model"] ∧
      (openpose (unload_openpose s)).2 = false) ∧
    (s.model_uniformer = none → unload_uniformer s = s) ∧
    (∀ d, s.model_uniformer = some d →
      (unload_uniformer s).model_uniformer = some d ∧
      (unload_uniformer s).ext_calls = s.ext_calls ++ ["unload_uniformer_model"] ∧
      (uniformer (unload_uniformer s)).2 = false) := by
  refine ⟨fun h => ?_, fun d h => ?_, fun h => ?_, fun d h => ?_, fun h => ?_,
    fun d h => ?_, fun h => ?_, fun d h => ?_, fun h => ?_, fun d h => ?_⟩ <;>
    simp [unload_hed, hed, unload_mlsd, mlsd, unload_midas, midas,
      unload_openpose, openpose, unload_uniformer, uniformer, h]

/-- Witness for C6 at concrete states: one with every slot empty, one with
every slot populated. -/
theorem C6_witness :
    unload_hed ⟨none, none, none, none, none, []⟩ = ⟨none, none, none, none, none, []⟩ ∧
    (unload_hed ⟨some Detector.apply_hed, none, none, none, none, []⟩).model_hed
      = some Detector.apply_hed ∧
    (unload_hed ⟨some Detector.apply_hed, none, none, none, none, []⟩).ext_calls
      = [] ++ ["unload_hed_model"] ∧
    (hed (unload_hed ⟨some Detector.apply_hed, none, none, none, none, []⟩)).2 = false ∧
    unload_uniformer ⟨none, none, none, none, none, []⟩ = ⟨none, none, none, none, none, []⟩ ∧
    (unload_uniformer ⟨none, none, none, none, some Detector.apply_uniformer, []⟩).model_uniformer
      = some Detector.apply_uniformer :=
  ⟨(C6_unload_semantics ⟨none, none, none, none, none, []⟩).1 rfl,
   ((C6_unload_semantics ⟨some Detector.apply_hed, none, none, none, none, []⟩).2.1
      Detector.apply_hed rfl).1,
   ((C6_unload_semantics ⟨some Detector.apply_hed, none, none, none, none, []⟩).2.1
      Detector.apply_hed rfl).2.1,
   ((C6_unload_semantics ⟨some Detector.apply_hed, none, none, none, none, []⟩).2.1
      Detector.apply_hed rfl).2.2,
   (C6_unload_semantics ⟨none, none, none, none, none, []⟩).2.2.2.2.2.2.2.2.1 rfl,
   ((C6_unload_semantics ⟨none, none, none, none, some Detector.apply_uniformer, []⟩).2.2.2.2.2.2.2.2.2
      Detector.apply_uniformer rfl).1⟩

/-- C7 counterexample: applying simple_scribble twice to a one-pixel black
image yields the all-zero image, not the all-255 image produced by a
single application, so simple_scribble is not idempotent on its output. -/
theorem C7_counterexample :
    simple_scribble (simple_scribble [[((0, 0, 0) : Pixel)]])
      ≠ simple_scribble [[((0, 0, 0) : Pixel)]] := by
  decide

/-- C7 as amended: on its own output, whose intensities are 0 or 255,
simple_scribble inverts every pixel, so two applications invert one
application and three applications equal one application (assuming the
external channel-coercion and resize utilities act as identity on an
already 3-channel, already target-sized image). -/
theorem C7_triple_application (img : List (List Pixel)) :
    simple_scribble (simple_scribble (simple_scribble img)) = simple_scribble img := by
  simp only [simple_scribble, List.map_map]
  congr 1
  funext row
  simp only [Function.comp_apply, List.map_map]
  congr 1
  funext p
  exact scribblePixel_triple p

/-- C8: when no checkpoint key starts with the control_model namespace,
reconciliation returns every key and value unmodified. -/
theorem C8_bare_checkpoint (state_dict : StateDict) (opts : SharedOpts)
    (base_model : Option StateDict)
    (h : state_dict.any (fun kv => startsW kv.1 ctrlModelPre) = false) :
    reconcile state_dict opts base_model = some state_dict := by
  unfold reconcile
  rw [h]
  simp

/-- Witness for C8 at a concrete bare checkpoint. -/
theorem C8_witness :
    ([(("zero_convs.0.0.weight".toList : Key), (3 : Int))].any
      (fun kv => startsW kv.1 ctrlModelPre) = false) ∧
    reconcile [("zero_convs.0.0.weight".toList, 3)] ⟨some true, some true⟩ (some [])
      = some [("zero_convs.0.0.weight".toList, 3)] :=
  ⟨by decide, C8_bare_checkpoint _ _ _ (by decide)⟩

/-- C9: a zero convolution produced by make_zero_conv and the final
convolution of the hint-processing sub-network have all parameters zero as
constructed, so each produces an all-zero output for every input window,
every output channel and every position. -/
theorem C9_zero_conv_neutral (c c' : ConvLayer) (window window' : Nat → List Int)
    (o q o' q' : Nat) :
    (make_zero_conv c).output window o q = 0 ∧
    (hintBlockFinalConv c').output window' o' q' = 0 :=
  ⟨zero_module_output c window o q, zero_module_output c' window' o' q'⟩

/-- C10: notify sets hint_cond and weight and changes nothing else: the
other wrapper fields, the held control network and the host network are
all untouched. -/
theorem C10_notify_frame {φ α : Type} (s : PlugableState α) (host : HostNetwork φ)
    (cond_like w : α) :
    (notify s cond_like w).hint_cond = some cond_like ∧
    (notify s cond_like w).weight = w ∧
    (notify s cond_like w).only_mid_control = s.only_mid_control ∧
    (notify s cond_like w).lowvram = s.lowvram ∧
    (notify s cond_like w).control = s.control ∧
    (notify s cond_like w).control_model = s.control_model ∧
    (notifySystem ⟨s, host⟩ cond_like w).host = host :=
  ⟨rfl, rfl, rfl, rfl, rfl, rfl, rfl⟩

/-- C2: for a bundled checkpoint with no difference key, with the transfer
setting enabled and a base-model key present, and a supplied base model,
every control_model key whose derived lookup key resolves in the base
model, and whose recorded base parameter exists in the checkpoint, is
reconciled to p plus the current base parameter minus the recorded base
parameter, whenever the reconciliation completes. -/
theorem C2_transfer_reconciliation
    (state_dict unet out : StateDict) (opts : SharedOpts)
    (key : Key) (p b_cur b_ref : Int)
    (hopt : opts.control_net_control_transfer = some true)
    (hnodiff : lookupKey diffKey state_dict = none)
    (hbase : state_dict.any (fun kv => startsW kv.1 diffModelPre) = true)
    (hmem : (key, p) ∈ state_dict)
    (hpre : startsW key ctrlModelPre = true)
    (hcur : lookupKey (transferKeyName key) unet = some b_cur)
    (href : lookupKey (diffModelPre ++ transferKeyName key) state_dict = some b_ref)
    (hrec : reconcile state_dict opts (some unet) = some out) :
    (replaceAll key ctrlModelPre [], p + b_cur - b_ref) ∈ out := by
  have hany : state_dict.any (fun kv => startsW kv.1 ctrlModelPre) = true :=
    startsW_any_of_mem hmem hpre
  have hent : transferEntry false state_dict unet key p = some (p + b_cur - b_ref) := by
    simp [transferEntry, hcur, href]
  unfold reconcile at hrec
  rw [hany, hnodiff, hopt, hbase] at hrec
  simp only [Option.isSome_none, Option.isSome_some, Option.getD_some, Bool.false_or,
    Bool.true_and, Bool.and_self, Bool.and_true, if_true] at hrec
  obtain ⟨mid, hmid, hout⟩ := Option.map_eq_some'.mp hrec
  exact hout ▸ stripCtrl_mem
    (transferControlLoop_mem false state_dict unet key p (p + b_cur - b_ref)
      hpre hent state_dict mid hmem hmid) hpre

/-- Witness for C2 at a concrete bundled checkpoint and base model:
p = 5, current base parameter 7, recorded base parameter 2, reconciled
value 5 + 7 - 2 = 10 under the stripped key. -/
theorem C2_witness :
    reconcile sdW ⟨some true, some true⟩ (some unetW) = some [(baseW, 10)] ∧
    (replaceAll ckW ctrlModelPre [], (5 : Int) + 7 - 2) ∈ ([(baseW, 10)] : StateDict) :=
  ⟨by decide,
   C2_transfer_reconciliation sdW unetW [(baseW, 10)] ⟨some true, some true⟩ ckW 5 7 2
     (by decide) (by decide) (by decide) (by decide) (by decide) (by decide) (by decide)
     (by decide)⟩

/-- C3: for a bundled checkpoint containing a difference key and a supplied
base model, reconciliation always completes; every control_model key whose
derived lookup key resolves in the base model is reconciled to p plus the
base parameter, and every control_model key without a counterpart keeps
its value unmodified. -/
theorem C3_difference_reconciliation
    (state_dict unet : StateDict) (opts : SharedOpts) (key : Key) (p : Int)
    (hdiff : (lookupKey diffKey state_dict).isSome = true)
    (hmem : (key, p) ∈ state_dict)
    (hpre : startsW key ctrlModelPre = true) :
    ∃ out, reconcile state_dict opts (some unet) = some out ∧
      (∀ b, lookupKey (transferKeyName key) unet = some b →
        (replaceAll key ctrlModelPre [], p + b) ∈ out) ∧
      (lookupKey (transferKeyName key) unet = none →
        (replaceAll key ctrlModelPre [], p) ∈ out) := by
  have hany : state_dict.any (fun kv => startsW kv.1 ctrlModelPre) = true :=
    startsW_any_of_mem hmem hpre
  obtain ⟨mid, hmid⟩ := Option.isSome_iff_exists.mp
    (transferControlLoop_diff_isSome state_dict unet state_dict)
  refine ⟨stripCtrl mid, ?_, ?_, ?_⟩
  · unfold reconcile
    rw [hany, hdiff]
    simp [hmid]
  · intro b hb
    have hent : transferEntry true state_dict unet key p = some (p + b) := by
      simp [transferEntry, hb]
    exact stripCtrl_mem
      (transferControlLoop_mem true state_dict unet key p (p + b)
        hpre hent state_dict mid hmem hmid) hpre
  · intro hb
    have hent : transferEntry true state_dict unet key p = some p := by
      simp [transferEntry, hb]
    exact stripCtrl_mem
      (transferControlLoop_mem true state_dict unet key p p
        hpre hent state_dict mid hmem hmid) hpre

/-- Witness for C3 at a concrete difference checkpoint: the key with a
base counterpart 7 is reconciled from 5 to 12. -/
theorem C3_witness :
    ∃ out, reconcile sd3W ⟨none, none⟩ (some unetW) = some out ∧
      (baseW, (12 : Int)) ∈ out := by
  obtain ⟨out, hrec, hsome, hnone⟩ :=
    C3_difference_reconciliation sd3W unetW ⟨none, none⟩ ckW 5
      (by decide) (by decide) (by decide)
  refine ⟨out, hrec, ?_⟩
  have hm := hsome 7 (by decide)
  have heq : ((replaceAll ckW ctrlModelPre [], (5 : Int) + 7) : Key × Int)
      = (baseW, (12 : Int)) := by decide
  exact heq ▸ hm

/-- C4: the forward pass of a constructed ControlNet returns a list of
length exactly the number of encoder blocks plus one, and the hooked host
forward consumes it as a stack, popping the last element into the
middle-block output and one element per decoder block, succeeding with the
control stack exhausted exactly when the decoder finishes, for any host
whose decoder mirrors the control encoder. -/
theorem C4_output_stack {α : Type} [Add α] (ops : HookOps α) (F : BlockFactory α)
    (channel_mult num_res_blocks : List Nat) (host : HostUNet α) (w x hint x2 : α)
    (hmirror : host.output_blocks.length
      = (ControlNet.build F channel_mult num_res_blocks).input_blocks.length)
    (hhost : host.input_blocks.length = host.output_blocks.length) :
    ((ControlNet.build F channel_mult num_res_blocks).forward x hint).length
      = (ControlNet.build F channel_mult num_res_blocks).input_blocks.length + 1 ∧
    ∃ r, hookedForwardCore ops host w false
        ((ControlNet.build F channel_mult num_res_blocks).forward x hint) x2
      = some (r, []) := by
  have hzc := build_zero_convs_length F channel_mult num_res_blocks
  have hflen := forward_length (ControlNet.build F channel_mult num_res_blocks) x hint hzc
  refine ⟨hflen, ?_⟩
  obtain ⟨cmid, control', hpop, hclen⟩ := popLast_of_length_succ _ _ hflen
  have hcl : control'.length = host.output_blocks.length := by rw [hclen, hmirror]
  have hhs : (hostEncode host.input_blocks x2).1.length = host.output_blocks.length := by
    rw [hostEncode_length, hhost]
  obtain ⟨hf, hdec⟩ := decodeLoop_exhaust ops w host.output_blocks
    (ops.add (host.middle_block (hostEncode host.input_blocks x2).2) cmid)
    (hostEncode host.input_blocks x2).1 control' hhs hcl
  refine ⟨host.out hf, ?_⟩
  simp only [hookedForwardCore]
  rw [hpop]
  dsimp only
  rw [hdec]

/-- Witness for C4 at a concrete one-level ControlNet and a mirrored
two-block host network over Int. -/
theorem C4_witness :
    hostW.output_blocks.length = (ControlNet.build FW [1] [1]).input_blocks.length ∧
    hostW.input_blocks.length = hostW.output_blocks.length ∧
    (((ControlNet.build FW [1] [1]).forward (0 : Int) 0).length
      = (ControlNet.build FW [1] [1]).input_blocks.length + 1 ∧
    ∃ r, hookedForwardCore opsW hostW 1 false
        ((ControlNet.build FW [1] [1]).forward (0 : Int) 0) 0 = some (r, [])) :=
  ⟨rfl, rfl, C4_output_stack opsW FW [1] [1] hostW 1 0 0 0 rfl rfl⟩
